import Mathlib

/-!
Shallow embedding of the leaf-certificate reconciliation engine of the
markeytos/terraform-provider-keytos repository
(internal/provider/ezca_ssl_leaf_cert_resource.go), together with proofs
about its renewal clock, identity diff rule, signing-request builder,
revocation invoker and the Create/Read/Update/Delete flows.

External collaborators (the Terraform value layer, the Go standard
library and the ezca-go client) are modelled: the Terraform three-state
attribute values become an inductive `Attr`, and stdlib or network
functions (duration/timestamp parsing, PEM codec, SHA-1, the Sign and
Revoke calls) are fields of an explicit environment `GoEnv`, so every
operation is a pure function of its inputs and the environment.
External Sign/Revoke calls are recorded in an event trace.
-/

namespace Keytos

/-- Terraform attribute value: a framework value is unknown, null, or a
known value. Models the three-state semantics of
terraform-plugin-framework types. -/
inductive Attr (α : Type) where
  | unknown : Attr α
  | null : Attr α
  | value : α → Attr α
deriving DecidableEq, Repr

/-- Models the framework IsUnknown method. -/
def Attr.isUnknown {α : Type} : Attr α → Bool
  | .unknown => true
  | _ => false

/-- Models the framework IsNull method. -/
def Attr.isNull {α : Type} : Attr α → Bool
  | .null => true
  | _ => false

/-- Models types.String ValueString: the known value, or the empty
string for null and unknown values. -/
def Attr.valueString : Attr String → String
  | .value s => s
  | _ => ""

/-- Models reading the elements of a types.List of strings the way the
source does it (Elements / ElementsAs with discarded diagnostics): a
null or unknown list contributes no elements. -/
def Attr.elems : Attr (List String) → List String
  | .value xs => xs
  | _ => []

/-- Models the String method of types.String (Go %q quoting for known
values, the <null> / <unknown> markers otherwise). The quoting models
Go %q restricted to quote and backslash escapes, the characters that
can occur in the inputs considered here. -/
def goQuote (s : String) : String :=
  "\x22" ++ String.mk (s.data.foldr
    (fun c acc =>
      if c = '\x22' then '\\' :: c :: acc
      else if c = '\\' then '\\' :: c :: acc
      else c :: acc) []) ++ "\x22"

/-- Models the String method of a framework types.String value. -/
def tfStringRepr : Attr String → String
  | .unknown => "<unknown>"
  | .null => "<null>"
  | .value s => goQuote s

/-- Embeds SubjectNameAttributeModel (the overwrite_subject_name nested
object). -/
structure SubjectNameAttr where
  commonName : Attr String
  country : Attr (List String)
  organization : Attr (List String)
  organizationalUnit : Attr (List String)
  locality : Attr (List String)
  province : Attr (List String)
  streetAddress : Attr (List String)
  postalCode : Attr (List String)
deriving DecidableEq, Repr

/-- Embeds SubjectAlternativeNamesAttributeModel (the
additional_subject_alternative_names nested object). -/
structure SubjectAlternativeNamesAttr where
  dnsNames : Attr (List String)
  emailAddresses : Attr (List String)
  ipAddresses : Attr (List String)
  uris : Attr (List String)
deriving DecidableEq, Repr

/-- Embeds KeytosEzcaSslLeafCertResourceModel: the desired-configuration
fields plus the persisted certificate record. -/
structure ResourceModel where
  authorityID : Attr String
  templateID : Attr String
  certRequestPEM : Attr String
  validityPeriod : Attr String
  keyUsages : Attr (List String)
  extendedKeyUsages : Attr (List String)
  overwriteSubjectName : Attr SubjectNameAttr
  overwriteSubjectNameStr : Attr String
  additionalSubjectAlternativeNames : Attr SubjectAlternativeNamesAttr
  earlyRenewalPeriod : Attr String
  certPEM : Attr String
  certThumbprintHex : Attr String
  certSerialNumber : Attr String
  readyForRenewal : Attr Bool
  validityNotBefore : Attr String
  validityNotAfter : Attr String
deriving DecidableEq, Repr

/-- Embeds ezca.SignOptions as used by the source: durations are
nanosecond counts, IP addresses and URIs are kept in their parsed
string form delivered by the environment. -/
structure SignOptions where
  sourceTag : String
  duration : Int
  keyUsages : List String
  extendedKeyUsages : List String
  subjectName : String
  dnsNames : List String
  emailAddresses : List String
  ipAddresses : List String
  uris : List String
deriving DecidableEq, Repr

/-- The zero-initialised ezca.SignOptions literal built at the top of
buildSignOptions. -/
def SignOptions.init : SignOptions :=
  { sourceTag := "keytos terraform provider"
    duration := 0
    keyUsages := []
    extendedKeyUsages := []
    subjectName := ""
    dnsNames := []
    emailAddresses := []
    ipAddresses := []
    uris := [] }

/-- A signed certificate as the source consumes it: raw DER bytes,
serial number, and validity bounds as nanosecond timestamps. -/
structure Certificate where
  raw : List Nat
  serialNumber : Int
  notBefore : Int
  notAfter : Int
deriving DecidableEq, Repr

/-- External signing-service calls recorded by the embedding, tagged
with the authority and template context of the client that issued
them. -/
inductive Event where
  | revoke : String → String → List Nat → Event
  | sign : String → String → List Nat → SignOptions → Event
deriving DecidableEq, Repr

/-- Environment of external collaborators: clock, Go stdlib parsing and
encoding functions, and the ezca signing service. Sign and Revoke are
keyed by the authority and template of the client used. -/
structure GoEnv where
  now : Int
  parseDuration : String → Option Int
  parseRFC3339 : String → Option Int
  formatRFC3339 : Int → String
  parseUUID : String → Option String
  pemDecode : String → Option (String × List Nat)
  pemEncode : String → List Nat → String
  sha1 : List Nat → List Nat
  parseIP : String → Option String
  parseURL : String → Option String
  newSSLAuthorityClient : String → String → Except String Unit
  sign : String → String → List Nat → SignOptions → Except String (List Certificate)
  revoke : String → String → List Nat → Except String Unit

/-- Result of a completed operation: accumulated diagnostics, the state
passed to State.Set (none when State.Set was not reached), and the
trace of external Sign/Revoke calls in order. -/
structure OpResult where
  diags : List String
  state : Option ResourceModel
  trace : List Event
deriving DecidableEq, Repr

/-- Outcome of running an operation: a normal return, or a Go runtime
crash (out-of-range index or short slice-to-array conversion), carrying
the external calls made before the crash. -/
inductive OpOutcome where
  | norm : OpResult → OpOutcome
  | crash : List Event → OpOutcome
deriving DecidableEq, Repr

/-- Diagnostics carry only AddError summaries in the embedded code, so
the HasError check is nonemptiness. -/
def hasErr (d : List String) : Bool := !d.isEmpty

/-! ### Model of pkix.Name and its RFC 2253 string assembly

The source builds a pkix.Name from the structural subject-name override
and calls its String method. These definitions model the Go standard
library crypto/x509/pkix String path (ToRDNSequence followed by
RDNSequence String). -/

/-- Embeds the pkix.Name fields the source populates. -/
structure PkixName where
  commonName : String
  country : List String
  organization : List String
  organizationalUnit : List String
  locality : List String
  province : List String
  streetAddress : List String
  postalCode : List String
deriving DecidableEq, Repr

/-- RFC 2253 value escaping as done by pkix AttributeTypeAndValue
String: escapes the special characters, a leading space or hash mark,
and a trailing space. -/
def rfc2253Escape (s : String) : String :=
  let n := s.data.length
  let esc : Nat → Char → List Char := fun k c =>
    let special :=
      c = ',' || c = '+' || c = '\x22' || c = '\\' || c = '<' || c = '>' || c = ';'
    let positional :=
      (c = ' ' && (k = 0 || k = n - 1)) || (c = '#' && k = 0)
    if special || positional then ['\\', c] else [c]
  String.mk (((List.range n).zip s.data).foldr (fun p acc => esc p.1 p.2 ++ acc) [])

/-- Models strings.Join / the comma- and plus-joined assembly used by
RDNSequence String. -/
def joinSep (sep : String) : List String → String
  | [] => ""
  | [x] => x
  | x :: y :: rest => x ++ sep ++ joinSep sep (y :: rest)

/-- One attribute-type-and-value rendered as TYPE=escaped-value. -/
def atvString (typ v : String) : String := typ ++ "=" ++ rfc2253Escape v

/-- One relative distinguished name: the values of a multi-valued field
joined with plus signs. -/
def rdnString (typ : String) (vals : List String) : String :=
  joinSep "+" (vals.map (atvString typ))

/-- The RDN groups before the common name, in pkix ToRDNSequence
order, empty fields skipped. -/
def PkixName.preGroups (n : PkixName) : List (String × List String) :=
  (if n.country = [] then [] else [("C", n.country)]) ++
  (if n.organization = [] then [] else [("O", n.organization)]) ++
  (if n.organizationalUnit = [] then [] else [("OU", n.organizationalUnit)]) ++
  (if n.locality = [] then [] else [("L", n.locality)]) ++
  (if n.province = [] then [] else [("ST", n.province)]) ++
  (if n.streetAddress = [] then [] else [("STREET", n.streetAddress)]) ++
  (if n.postalCode = [] then [] else [("POSTALCODE", n.postalCode)])

/-- Models pkix.Name ToRDNSequence: groups appended in source order,
empty fields skipped, common name last. -/
def PkixName.toGroups (n : PkixName) : List (String × List String) :=
  n.preGroups ++ (if n.commonName = "" then [] else [("CN", [n.commonName])])

/-- Models pkix.Name String: the RDN groups printed in reverse order,
joined with commas. -/
def PkixName.string (n : PkixName) : String :=
  joinSep "," (n.toGroups.reverse.map (fun g => rdnString g.1 g.2))

/-! ### Hex codec and the slice-to-array conversion -/

/-- Value of one hexadecimal digit character, none for non-hex input.
Models encoding/hex digit decoding. -/
def hexDigit (c : Char) : Option Nat :=
  if '0' ≤ c ∧ c ≤ '9' then some (c.toNat - '0'.toNat)
  else if 'a' ≤ c ∧ c ≤ 'f' then some (c.toNat - 'a'.toNat + 10)
  else if 'A' ≤ c ∧ c ≤ 'F' then some (c.toNat - 'A'.toNat + 10)
  else none

/-- Models hex.DecodeString over the character list: fails on odd
length or any non-hex character. -/
def hexDecodeChars : List Char → Option (List Nat)
  | [] => some []
  | [_] => none
  | c1 :: c2 :: rest =>
    match hexDigit c1, hexDigit c2, hexDecodeChars rest with
    | some h, some l, some r => some ((h * 16 + l) :: r)
    | _, _, _ => none

/-- Models hex.DecodeString. -/
def hexDecode (s : String) : Option (List Nat) := hexDecodeChars s.data

/-- Lowercase hexadecimal digit character for a value below 16. -/
def hexDigitChar (n : Nat) : Char :=
  if n < 10 then Char.ofNat ('0'.toNat + n) else Char.ofNat ('a'.toNat + n - 10)

/-- Models hex.EncodeToString over byte values. -/
def hexEncode (bs : List Nat) : String :=
  String.mk (bs.foldr (fun b acc => hexDigitChar (b / 16) :: hexDigitChar (b % 16) :: acc) [])

/-- Models the Go conversion of a byte slice to a 20-byte array, as in
the source expression converting the decoded thumbprint: it crashes
(none) when the slice is shorter than 20 bytes and otherwise takes the
first 20 bytes, silently dropping any excess. -/
def sliceToArray20 (bs : List Nat) : Option (List Nat) :=
  if bs.length < 20 then none else some (bs.take 20)

/-! ### Core pure functions of the reconciliation engine -/

/-- Embeds readyForRenewal: notAfter.Add(-earlyRenewalPeriod) strictly
before the current time. Times and durations are nanosecond counts. -/
def readyForRenewal (notAfter earlyRenewalPeriod now : Int) : Bool :=
  decide (notAfter - earlyRenewalPeriod < now)

/-- Embeds the csr helper: decode one PEM block and require the
CERTIFICATE REQUEST type. -/
def csr (env : GoEnv) (s : String) : Except String (List Nat) :=
  match env.pemDecode s with
  | none => .error "no valid PEM block passed as certificate request"
  | some (t, b) =>
    if t = "CERTIFICATE REQUEST" then .ok b
    else .error "passed PEM block is not of certificate request type"

/-- Embeds sslAuthorityClient: parse both UUIDs, then build the
authority client; the client is represented by its authority and
template identity. -/
def sslAuthorityClient (env : GoEnv) (m : ResourceModel) : Except String (String × String) :=
  match env.parseUUID m.authorityID.valueString, env.parseUUID m.templateID.valueString with
  | some a, some t =>
    match env.newSSLAuthorityClient a t with
    | .ok _ => .ok (a, t)
    | .error e => .error ("error getting SSL Authority client: " ++ e)
  | _, _ => .error "expected a valid UUID for Authority ID or Template ID"

/-- Named key-usage constant of the external ezca-go library
(ezca.KeyUsageKeyEncipherment); the library defines the wire string. -/
def ezcaKeyUsageKeyEncipherment : String := "Key Encipherment"

/-- Named key-usage constant of the external ezca-go library
(ezca.KeyUsageDigitalSignature). -/
def ezcaKeyUsageDigitalSignature : String := "Digital Signature"

/-- Named extended-key-usage constant of the external ezca-go library
(ezca.ExtKeyUsageServerAuth). -/
def ezcaExtKeyUsageServerAuth : String := "Server Authentication"

/-- Named extended-key-usage constant of the external ezca-go library
(ezca.ExtKeyUsageClientAuth). -/
def ezcaExtKeyUsageClientAuth : String := "Client Authentication"

/-- The default key-usage list written into the model when key_usages is
unknown. -/
def defaultKeyUsages : List String :=
  [ezcaKeyUsageKeyEncipherment, ezcaKeyUsageDigitalSignature]

/-- The default extended-key-usage list written into the model when
extended_key_usages is unknown. -/
def defaultExtKeyUsages : List String :=
  [ezcaExtKeyUsageServerAuth, ezcaExtKeyUsageClientAuth]

/-- Result of buildSignOptions: the possibly mutated resource model (the
Go code mutates it through a pointer), the produced options (none on an
early nil return), and the accumulated diagnostics. -/
structure BSOResult where
  model : ResourceModel
  opts : Option SignOptions
  diags : List String
deriving DecidableEq, Repr




/-- The additional-subject-alternative-names stage of buildSignOptions:
IP addresses and URIs are parsed entry by entry, a failed entry adds a
diagnostic and is skipped, parsed entries accumulate. -/
def buildSignOptionsSAN (env : GoEnv) (m : ResourceModel) (so : SignOptions)
    (diags : List String) : BSOResult :=
  match m.additionalSubjectAlternativeNames with
  | .null =>
    ⟨m, none, diags ++ ["Invalid Subject Alternative Names: null object"]⟩
  | .value sanm =>
    let ipStep : List String × List String :=
      sanm.ipAddresses.elems.foldl
        (fun acc v =>
          match env.parseIP v with
          | none => (acc.1, acc.2 ++ ["Invalid Subject Alternative Name: invalid IP string " ++ goQuote v])
          | some ip => (acc.1 ++ [ip], acc.2)) ([], [])
    let uriStep : List String × List String :=
      sanm.uris.elems.foldl
        (fun acc v =>
          match env.parseURL v with
          | none => (acc.1, acc.2 ++ ["Invalid Subject Alternative Name: invalid URI string " ++ goQuote v])
          | some uri => (acc.1 ++ [uri], acc.2)) ([], [])
    ⟨m,
      some { so with
        dnsNames := sanm.dnsNames.elems
        emailAddresses := sanm.emailAddresses.elems
        ipAddresses := ipStep.1
        uris := uriStep.1 },
      diags ++ ipStep.2 ++ uriStep.2⟩
  | .unknown =>
    ⟨{ m with additionalSubjectAlternativeNames := .null }, some so, diags⟩

/-- The part of buildSignOptions after the structural subject-name
stage: literal subject-name override and additional subject alternative
names. -/
def buildSignOptionsTail (env : GoEnv) (m : ResourceModel) (so : SignOptions)
    (diags : List String) : BSOResult :=
  match m.overwriteSubjectNameStr with
  | .unknown =>
    buildSignOptionsSAN env { m with overwriteSubjectNameStr := .null } so diags
  | other =>
    if so.subjectName ≠ "" then
      ⟨m, none, diags ++
        ["Invalid Overwrite Subject Name: only one of overwrite_subject_name or overwrite_subject_name_str can be defined"]⟩
    else
      buildSignOptionsSAN env m { so with subjectName := other.valueString } diags

/-- The key-usage stage of buildSignOptions: an unknown list writes the
library defaults back into the model, a known list is copied into the
options. -/
def kuStep (m : ResourceModel) (so : SignOptions) : ResourceModel × SignOptions :=
  if m.keyUsages.isUnknown then
    ({ m with keyUsages := Attr.value defaultKeyUsages }, so)
  else
    (m, { so with keyUsages := m.keyUsages.elems })

/-- The extended-key-usage stage of buildSignOptions, mirroring
kuStep. -/
def ekuStep (m : ResourceModel) (so : SignOptions) : ResourceModel × SignOptions :=
  if m.extendedKeyUsages.isUnknown then
    ({ m with extendedKeyUsages := Attr.value defaultExtKeyUsages }, so)
  else
    (m, { so with extendedKeyUsages := m.extendedKeyUsages.elems })

/-- The pkix.Name the source assembles from the structural
subject-name object; the common name is the framework String
representation of the attribute, as in the source. -/
def pkixOf (snm : SubjectNameAttr) : PkixName :=
  { commonName := tfStringRepr snm.commonName
    country := snm.country.elems
    organization := snm.organization.elems
    organizationalUnit := snm.organizationalUnit.elems
    locality := snm.locality.elems
    province := snm.province.elems
    streetAddress := snm.streetAddress.elems
    postalCode := snm.postalCode.elems }

/-- The structural subject-name stage of buildSignOptions: a null
object fails the As conversion; a known object is assembled into a
distinguished-name string (an early nil return also happens here when
the diagnostics already hold an error, exactly as in the source); an
unknown object is nulled out in the model. -/
def snStep (env : GoEnv) (m : ResourceModel) (so : SignOptions) (diags0 : List String) :
    BSOResult :=
  match m.overwriteSubjectName with
  | .null =>
    ⟨m, none, diags0 ++ ["Value Conversion Error: null overwrite subject name object"]⟩
  | .value snm =>
    if hasErr diags0 then ⟨m, none, diags0⟩
    else buildSignOptionsTail env m { so with subjectName := (pkixOf snm).string } diags0
  | .unknown =>
    buildSignOptionsTail env { m with overwriteSubjectName := .null } so diags0

/-- Embeds buildSignOptions, stage by stage in source order: validity
duration, key usages, extended key usages, structural subject-name
override, then the tail stages (literal subject-name override and
additional subject alternative names). diags0 is the content of the
response diagnostics at entry. -/
def buildSignOptions (env : GoEnv) (m : ResourceModel) (diags0 : List String) : BSOResult :=
  match env.parseDuration m.validityPeriod.valueString with
  | none => ⟨m, none, diags0 ++ ["Invalid Duration String"]⟩
  | some dur =>
    let p1 := kuStep m { SignOptions.init with duration := dur }
    let p2 := ekuStep p1.1 p1.2
    snStep env p2.1 p2.2 diags0

/-- Embeds the early-renewal-period block shared by Create and Update:
when the attribute is unknown it is nulled out and zero is used,
otherwise its string value must parse as a duration. -/
def erpStep (env : GoEnv) (m : ResourceModel) : Except String (ResourceModel × Int) :=
  if m.earlyRenewalPeriod.isUnknown then
    .ok ({ m with earlyRenewalPeriod := .null }, 0)
  else
    match env.parseDuration m.earlyRenewalPeriod.valueString with
    | none => .error "Invalid Validity Period: invalid duration string"
    | some erp => .ok (m, erp)

/-- Embeds saveCertificate: derive all persisted record fields from the
signed certificate. -/
def saveCertificate (env : GoEnv) (m : ResourceModel) (cert : Certificate) (erp : Int) :
    ResourceModel :=
  let thumb := env.sha1 cert.raw
  { m with
    certPEM := .value (env.pemEncode "CERTIFICATE" cert.raw)
    certThumbprintHex := .value (hexEncode thumb)
    certSerialNumber := .value (toString cert.serialNumber)
    validityNotBefore := .value (env.formatRFC3339 cert.notBefore)
    validityNotAfter := .value (env.formatRFC3339 cert.notAfter)
    readyForRenewal := .value (readyForRenewal cert.notAfter erp env.now) }

/-- Embeds requireNewCertificate: the identity diff over exactly the
nine identity-affecting attributes, using framework value equality. -/
def requireNewCertificate (l r : ResourceModel) : Bool :=
  decide (l.authorityID ≠ r.authorityID) ||
  decide (l.templateID ≠ r.templateID) ||
  decide (l.certRequestPEM ≠ r.certRequestPEM) ||
  decide (l.validityPeriod ≠ r.validityPeriod) ||
  decide (l.keyUsages ≠ r.keyUsages) ||
  decide (l.extendedKeyUsages ≠ r.extendedKeyUsages) ||
  decide (l.overwriteSubjectName ≠ r.overwriteSubjectName) ||
  decide (l.overwriteSubjectNameStr ≠ r.overwriteSubjectNameStr) ||
  decide (l.additionalSubjectAlternativeNames ≠ r.additionalSubjectAlternativeNames)

/-- Embeds the not-ready branch of the no-identity-change update: the
certificate record fields of the old state are copied onto the new
model through ValueString, and ready_for_renewal is forced false. -/
def carryForward (newm oldm : ResourceModel) : ResourceModel :=
  { newm with
    certPEM := .value oldm.certPEM.valueString
    certThumbprintHex := .value oldm.certThumbprintHex.valueString
    certSerialNumber := .value oldm.certSerialNumber.valueString
    readyForRenewal := .value false
    validityNotBefore := .value oldm.validityNotBefore.valueString
    validityNotAfter := .value oldm.validityNotAfter.valueString }

/-- Diagnostics produced by a revoke call outcome: a revoke failure is
recorded but does not stop the flow. -/
def revokeDiags : Except String Unit → List String
  | .error e => ["Error Revoking Certificate: " ++ e]
  | .ok _ => []

/-! ### The Create, Read, Update and Delete operations -/

/-- Embeds Create: build the authority client, parse the CSR, build the
signing options, resolve the early renewal period, check it against the
certificate duration, sign, and materialize the record. -/
def Create (env : GoEnv) (plan : ResourceModel) : OpOutcome :=
  match sslAuthorityClient env plan with
  | .error e => .norm ⟨["Error creating SSL authority client: " ++ e], none, []⟩
  | .ok ct =>
  match csr env plan.certRequestPEM.valueString with
  | .error e => .norm ⟨["Invalid Certificate Request PEM: " ++ e], none, []⟩
  | .ok csrB =>
  if hasErr (buildSignOptions env plan []).diags then
    .norm ⟨(buildSignOptions env plan []).diags, none, []⟩
  else
  match (buildSignOptions env plan []).opts with
  | none => .crash []
  | some so =>
  match erpStep env (buildSignOptions env plan []).model with
  | .error e => .norm ⟨[e], none, []⟩
  | .ok me =>
  if decide (me.2 > so.duration) then
    .norm ⟨["Invalid Early Renewal Period: early renewal period greater than certificate duration"], none, []⟩
  else
    match env.sign ct.1 ct.2 csrB so with
    | .error e => .norm ⟨["Error Signing: " ++ e], none, [.sign ct.1 ct.2 csrB so]⟩
    | .ok [] => .crash [.sign ct.1 ct.2 csrB so]
    | .ok (c :: _) =>
      .norm ⟨[], some (saveCertificate env me.1 c me.2), [.sign ct.1 ct.2 csrB so]⟩

/-- The early-renewal-period block of Read: a null attribute means
duration zero, otherwise the string must parse; a parse failure yields
duration zero plus an error diagnostic, with no early return. -/
def readErpStep (env : GoEnv) (data : ResourceModel) : Int × List String :=
  if data.earlyRenewalPeriod.isNull then (0, [])
  else
    match env.parseDuration data.earlyRenewalPeriod.valueString with
    | none => (0, ["Invalid Validity Period: invalid duration string"])
    | some v => (v, [])

/-- Embeds Read: recompute renewal readiness from persisted state; when
ready, renew in place by signing again; otherwise refresh only the
ready_for_renewal flag. A malformed persisted early renewal period adds
an error diagnostic without an early return, exactly as the source
does. -/
def Read (env : GoEnv) (data : ResourceModel) : OpOutcome :=
  match sslAuthorityClient env data with
  | .error e => .norm ⟨["Error creating SSL authority client: " ++ e], none, []⟩
  | .ok ct =>
  match env.parseRFC3339 data.validityNotAfter.valueString with
  | none =>
    .norm ⟨["Invalid Internal State: invalid certificate expiration time stamp"], none, []⟩
  | some notAfter =>
  if data.earlyRenewalPeriod.isUnknown then
    .norm ⟨["Invalid Internal State: invalid certificate early renewal period: unknown"], none, []⟩
  else
    if readyForRenewal notAfter (readErpStep env data).1 env.now then
      match csr env data.certRequestPEM.valueString with
      | .error e =>
        .norm ⟨(readErpStep env data).2 ++ ["Invalid Certificate Request PEM: " ++ e], none, []⟩
      | .ok csrB =>
      if hasErr (buildSignOptions env data (readErpStep env data).2).diags then
        .norm ⟨(buildSignOptions env data (readErpStep env data).2).diags, none, []⟩
      else
      match (buildSignOptions env data (readErpStep env data).2).opts with
      | none => .crash []
      | some so =>
      match env.sign ct.1 ct.2 csrB so with
      | .error e =>
        .norm ⟨(buildSignOptions env data (readErpStep env data).2).diags ++
          ["Error Renewing Certificate: " ++ e], none, [.sign ct.1 ct.2 csrB so]⟩
      | .ok [] => .crash [.sign ct.1 ct.2 csrB so]
      | .ok (c :: _) =>
        .norm ⟨(buildSignOptions env data (readErpStep env data).2).diags,
          some (saveCertificate env (buildSignOptions env data (readErpStep env data).2).model
            c (readErpStep env data).1),
          [.sign ct.1 ct.2 csrB so]⟩
    else
      .norm ⟨(readErpStep env data).2, some { data with readyForRenewal := .value false }, []⟩

/-- Embeds Update: parse the CSR and build the signing options from the
new plan, resolve the early renewal period, then either replace
(identity changed: revoke the old thumbprint with the old-state client,
then sign with the new-state client) or, with unchanged identity, renew
when the renewal window is reached (revoke then sign, both with the
new-state client) or carry the old record forward with
ready_for_renewal forced false. -/
def Update (env : GoEnv) (newm oldm : ResourceModel) : OpOutcome :=
  match csr env newm.certRequestPEM.valueString with
  | .error e => .norm ⟨["Invalid Certificate Request PEM: " ++ e], none, []⟩
  | .ok csrB =>
  if hasErr (buildSignOptions env newm []).diags then
    .norm ⟨(buildSignOptions env newm []).diags, none, []⟩
  else
  match (buildSignOptions env newm []).opts with
  | none => .crash []
  | some so =>
  match erpStep env (buildSignOptions env newm []).model with
  | .error e => .norm ⟨[e], none, []⟩
  | .ok me =>
  if decide (me.2 > so.duration) then
    .norm ⟨["Invalid Early Renewal Period: early renewal period greater than certificate duration"], none, []⟩
  else
    if requireNewCertificate me.1 oldm then
      match sslAuthorityClient env oldm with
      | .error e => .norm ⟨["Error creating SSL authority client: " ++ e], none, []⟩
      | .ok oct =>
      match hexDecode oldm.certThumbprintHex.valueString with
      | none => .norm ⟨["Invalid Certificate Thumbprint"], none, []⟩
      | some tb =>
      match sliceToArray20 tb with
      | none => .crash []
      | some arr =>
      match sslAuthorityClient env newm with
      | .error e =>
        .norm ⟨revokeDiags (env.revoke oct.1 oct.2 arr) ++
          ["Error creating SSL authority client: " ++ e], none,
          [.revoke oct.1 oct.2 arr]⟩
      | .ok nct =>
      match env.sign nct.1 nct.2 csrB so with
      | .error e =>
        .norm ⟨revokeDiags (env.revoke oct.1 oct.2 arr) ++ ["Error Signing: " ++ e], none,
          [.revoke oct.1 oct.2 arr, .sign nct.1 nct.2 csrB so]⟩
      | .ok [] => .crash [.revoke oct.1 oct.2 arr, .sign nct.1 nct.2 csrB so]
      | .ok (c :: _) =>
        .norm ⟨revokeDiags (env.revoke oct.1 oct.2 arr), some (saveCertificate env me.1 c me.2),
          [.revoke oct.1 oct.2 arr, .sign nct.1 nct.2 csrB so]⟩
    else
      match env.parseRFC3339 oldm.validityNotAfter.valueString with
      | none =>
        .norm ⟨["Invalid Internal State: invalid certificate expiration time stamp"], none, []⟩
      | some notAfter =>
      if readyForRenewal notAfter me.2 env.now then
        match sslAuthorityClient env newm with
        | .error e => .norm ⟨["Error creating SSL authority client: " ++ e], none, []⟩
        | .ok nct =>
        match hexDecode oldm.certThumbprintHex.valueString with
        | none => .norm ⟨["Invalid Certificate Thumbprint"], none, []⟩
        | some tb =>
        match sliceToArray20 tb with
        | none => .crash []
        | some arr =>
        match env.sign nct.1 nct.2 csrB so with
        | .error e =>
          .norm ⟨revokeDiags (env.revoke nct.1 nct.2 arr) ++
            ["Error Renewing Certificate: " ++ e], none,
            [.revoke nct.1 nct.2 arr, .sign nct.1 nct.2 csrB so]⟩
        | .ok [] => .crash [.revoke nct.1 nct.2 arr, .sign nct.1 nct.2 csrB so]
        | .ok (c :: _) =>
          .norm ⟨revokeDiags (env.revoke nct.1 nct.2 arr), some (saveCertificate env me.1 c me.2),
            [.revoke nct.1 nct.2 arr, .sign nct.1 nct.2 csrB so]⟩
      else
        .norm ⟨[], some (carryForward me.1 oldm), []⟩

/-- Embeds Delete: best-effort revocation of the current thumbprint;
the state removal itself is handled by the framework. -/
def Delete (env : GoEnv) (data : ResourceModel) : OpOutcome :=
  match sslAuthorityClient env data with
  | .error e => .norm ⟨["Error creating SSL authority client: " ++ e], none, []⟩
  | .ok ct =>
  match hexDecode data.certThumbprintHex.valueString with
  | none => .norm ⟨["Invalid Certificate Thumbprint"], none, []⟩
  | some tb =>
  match sliceToArray20 tb with
  | none => .crash []
  | some arr =>
  match env.revoke ct.1 ct.2 arr with
  | .error e => .norm ⟨["Error Revoking Certificate: " ++ e], none, [.revoke ct.1 ct.2 arr]⟩
  | .ok _ => .norm ⟨[], none, [.revoke ct.1 ct.2 arr]⟩

/-- Modelled from the spec: the persistence behaviour of the
surrounding declarative framework, which is not part of this
repository. An error diagnostic makes the operation fatal and the
prior record is kept; a crash also leaves the prior record; otherwise
the state handed to State.Set, when any, replaces the prior record. -/
def commit (prior : ResourceModel) : OpOutcome → ResourceModel
  | .crash _ => prior
  | .norm r => if hasErr r.diags then prior else r.state.getD prior

/-! ### Concrete instances used to evaluate the embedding -/

/-- A concrete environment: a fixed clock, small parsing tables for the
strings the examples use, a signing service whose Sign fails; variants
override single fields. -/
def stdEnv : GoEnv :=
  { now := 1000
    parseDuration := fun s =>
      if s = "24h" then some 24 else if s = "48h" then some 48
      else if s = "0" then some 0 else none
    parseRFC3339 := fun s =>
      if s = "T2000" then some 2000 else if s = "T100" then some 100 else none
    formatRFC3339 := fun t => "T" ++ toString t
    parseUUID := fun s => if s = "" then none else some s
    pemDecode := fun s =>
      if s = "CSRPEM" then some ("CERTIFICATE REQUEST", [1, 2, 3])
      else if s = "KEYPEM" then some ("PRIVATE KEY", [7]) else none
    pemEncode := fun t b => t ++ toString b
    sha1 := fun b => (b ++ List.replicate 20 0).take 20
    parseIP := fun s => if s = "1.2.3.4" then some "1.2.3.4" else none
    parseURL := fun s => some s
    newSSLAuthorityClient := fun _ _ => .ok ()
    sign := fun _ _ _ _ => .error "no signer"
    revoke := fun _ _ _ => .ok () }

/-- A concrete plan as it arrives at Create: required fields set, all
optional computed fields unknown, record fields null. -/
def basePlan : ResourceModel :=
  { authorityID := .value "auth-uuid"
    templateID := .value "tmpl-uuid"
    certRequestPEM := .value "CSRPEM"
    validityPeriod := .value "24h"
    keyUsages := .unknown
    extendedKeyUsages := .unknown
    overwriteSubjectName := .unknown
    overwriteSubjectNameStr := .unknown
    additionalSubjectAlternativeNames := .unknown
    earlyRenewalPeriod := .unknown
    certPEM := .null
    certThumbprintHex := .null
    certSerialNumber := .null
    readyForRenewal := .null
    validityNotBefore := .null
    validityNotAfter := .null }

/-- A concrete signed certificate. -/
def cert1 : Certificate := ⟨[9, 9], 7, 100, 2000⟩

/-- A concrete persisted prior state, as left behind by a Create of
basePlan followed by signing cert1. -/
def baseState : ResourceModel :=
  { authorityID := .value "auth-uuid"
    templateID := .value "tmpl-uuid"
    certRequestPEM := .value "CSRPEM"
    validityPeriod := .value "24h"
    keyUsages := .value defaultKeyUsages
    extendedKeyUsages := .value defaultExtKeyUsages
    overwriteSubjectName := .null
    overwriteSubjectNameStr := .null
    additionalSubjectAlternativeNames := .null
    earlyRenewalPeriod := .null
    certPEM := .value "CERTIFICATE[9, 9]"
    certThumbprintHex := .value ("0909" ++ String.mk (List.replicate 36 '0'))
    certSerialNumber := .value "7"
    readyForRenewal := .value false
    validityNotBefore := .value "T100"
    validityNotAfter := .value "T2000" }

/-- A prior state whose plan differs from it only in
early_renewal_period. -/
def erpOnlyPlan : ResourceModel := { baseState with earlyRenewalPeriod := .value "48h" }

/-- A persisted state whose thumbprint hex decodes to 30 bytes. -/
def longThumbState : ResourceModel :=
  { baseState with certThumbprintHex := .value (String.mk (List.replicate 60 '0')) }

/-- A persisted state whose thumbprint hex decodes to 2 bytes. -/
def shortThumbState : ResourceModel :=
  { baseState with certThumbprintHex := .value "0000" }

/-- The options produced for basePlan. -/
def basePlanOpts : SignOptions := { SignOptions.init with duration := 24 }

/-- A second concrete signed certificate. -/
def cert2 : Certificate := ⟨[8, 8], 11, 500, 3000⟩

/-- The thumbprint bytes of baseState. -/
def baseThumb : List Nat := [9, 9] ++ List.replicate 18 0

/-- An environment whose revoke call fails and whose sign call returns
cert2. -/
def envRepl : GoEnv :=
  { stdEnv with
    sign := fun _ _ _ _ => .ok [cert2]
    revoke := fun _ _ _ => .error "revoke down" }

/-- A plan identical to basePlan except for a 48h validity period: an
identity-affecting change against baseState. -/
def newPlan48 : ResourceModel := { basePlan with validityPeriod := .value "48h" }

/-- newPlan48 as mutated by buildSignOptions and the early-renewal
step. -/
def newPlan48Resolved : ResourceModel :=
  { newPlan48 with
    keyUsages := .value defaultKeyUsages
    extendedKeyUsages := .value defaultExtKeyUsages
    overwriteSubjectName := .null
    overwriteSubjectNameStr := .null
    additionalSubjectAlternativeNames := .null
    earlyRenewalPeriod := .null }

/-- The options built for newPlan48. -/
def so48 : SignOptions := { SignOptions.init with duration := 48 }

/-- The result of the replace-path update of baseState by newPlan48
under stdEnv, whose signing service fails. -/
def c2res : OpResult :=
  ⟨["Error Signing: " ++ "no signer"], none,
   [Event.revoke "auth-uuid" "tmpl-uuid" baseThumb,
    Event.sign "auth-uuid" "tmpl-uuid" [1, 2, 3] so48]⟩

/-- A plan equal to baseState on every identity-affecting field once
resolved, with an explicit zero early renewal period. -/
def noChangePlan : ResourceModel := { basePlan with earlyRenewalPeriod := .value "0" }

/-- noChangePlan as mutated by buildSignOptions. -/
def noChangePlanResolved : ResourceModel :=
  { noChangePlan with
    keyUsages := .value defaultKeyUsages
    extendedKeyUsages := .value defaultExtKeyUsages
    overwriteSubjectName := .null
    overwriteSubjectNameStr := .null
    additionalSubjectAlternativeNames := .null }

/-- basePlan as mutated by buildSignOptions and the early-renewal
step. -/
def basePlanResolved : ResourceModel :=
  { basePlan with
    keyUsages := .value defaultKeyUsages
    extendedKeyUsages := .value defaultExtKeyUsages
    overwriteSubjectName := .null
    overwriteSubjectNameStr := .null
    additionalSubjectAlternativeNames := .null
    earlyRenewalPeriod := .null }

/-- An environment whose signing service reports success with an empty
certificate list. -/
def envEmptySign : GoEnv := { stdEnv with sign := fun _ _ _ _ => .ok [] }

/-- A persisted state whose validity-not-after no longer parses. -/
def badNotAfterState : ResourceModel :=
  { baseState with validityNotAfter := .value "garbage" }

/-- The outcome property C9 asserts for a corrupted persisted record:
the committed record is the prior one, the operation does not crash,
and any normal return carries an error diagnostic and made no external
call. -/
def failsWithoutMutation (prior : ResourceModel) (o : OpOutcome) : Prop :=
  commit prior o = prior ∧ (∀ tr, o ≠ OpOutcome.crash tr) ∧
  ∀ r, o = OpOutcome.norm r → (hasErr r.diags = true ∧ r.trace = [])

/-- A plan populating both the structural and the literal subject-name
override. -/
def bothSNPlan : ResourceModel :=
  { basePlan with
    overwriteSubjectName := .value
      { commonName := .value "cn"
        country := .null
        organization := .null
        organizationalUnit := .null
        locality := .null
        province := .null
        streetAddress := .null
        postalCode := .null }
    overwriteSubjectNameStr := .value "CN=other" }

/-- Consistency of the two concrete instances: creating basePlan in an
environment whose signing service returns cert1 persists exactly
baseState. -/
theorem create_basePlan_gives_baseState :
    Create { stdEnv with sign := fun _ _ _ _ => .ok [cert1] } basePlan =
      .norm ⟨[], some baseState,
        [.sign "auth-uuid" "tmpl-uuid" [1, 2, 3]
          { SignOptions.init with duration := 24 }]⟩ := by
  decide

/-! ### Claim theorems -/

/-- C3, counterexample: the renewal clock at the exact boundary
now = notAfter - earlyRenewalPeriod returns false, so it is not the
claimed "true iff now is at least notAfter - earlyRenewalPeriod" at
the concrete input notAfter = 10, period 0, now = 10. -/
theorem readyForRenewal_boundary_counterexample :
    readyForRenewal 10 0 10 = false ∧
      ¬ (readyForRenewal 10 0 10 = true ↔ (10 : Int) - 0 ≤ 10) := by
  decide

/-- C3, amended: readyForRenewal notAfter erp now is true exactly when
now is strictly later than notAfter - erp; the boundary instant itself
yields false. -/
theorem readyForRenewal_iff_strictly_past (notAfter erp now : Int) :
    readyForRenewal notAfter erp now = true ↔ notAfter - erp < now := by
  simp [readyForRenewal]

/-- C1C4: requireNewCertificate returns true exactly when the two
models differ in at least one of the nine identity-affecting
attributes, and any difference confined to other fields (in particular
early_renewal_period) never forces a replace. -/
theorem requireNewCertificate_iff_identity_diff :
    (∀ l r : ResourceModel, requireNewCertificate l r = true ↔
      (l.authorityID ≠ r.authorityID ∨ l.templateID ≠ r.templateID ∨
       l.certRequestPEM ≠ r.certRequestPEM ∨ l.validityPeriod ≠ r.validityPeriod ∨
       l.keyUsages ≠ r.keyUsages ∨ l.extendedKeyUsages ≠ r.extendedKeyUsages ∨
       l.overwriteSubjectName ≠ r.overwriteSubjectName ∨
       l.overwriteSubjectNameStr ≠ r.overwriteSubjectNameStr ∨
       l.additionalSubjectAlternativeNames ≠ r.additionalSubjectAlternativeNames)) ∧
    (∀ l r : ResourceModel,
      l.authorityID = r.authorityID → l.templateID = r.templateID →
      l.certRequestPEM = r.certRequestPEM → l.validityPeriod = r.validityPeriod →
      l.keyUsages = r.keyUsages → l.extendedKeyUsages = r.extendedKeyUsages →
      l.overwriteSubjectName = r.overwriteSubjectName →
      l.overwriteSubjectNameStr = r.overwriteSubjectNameStr →
      l.additionalSubjectAlternativeNames = r.additionalSubjectAlternativeNames →
      requireNewCertificate l r = false) := by
  constructor
  · intro l r
    simp [requireNewCertificate, Bool.or_eq_true, decide_eq_true_eq]
    tauto
  · intro l r h1 h2 h3 h4 h5 h6 h7 h8 h9
    simp [requireNewCertificate, h1, h2, h3, h4, h5, h6, h7, h8, h9]


/-- C1C4, witness: an update that changes only early_renewal_period is
not a replace. -/
theorem requireNewCertificate_erp_only_witness :
    requireNewCertificate erpOnlyPlan baseState = false :=
  requireNewCertificate_iff_identity_diff.2 erpOnlyPlan baseState
    rfl rfl rfl rfl rfl rfl rfl rfl rfl



/-- C5: the code does not validate the decoded thumbprint length. A
60-hex-digit persisted thumbprint decodes to 30 bytes, is silently
truncated to its first 20 bytes by the slice-to-array conversion, and
the revoke call is issued anyway with no diagnostic; a 4-hex-digit
thumbprint decodes to 2 bytes and the conversion crashes at run time
instead of failing with a validation diagnostic. -/
theorem delete_malformed_thumbprint_not_validated :
    Delete stdEnv longThumbState =
      .norm ⟨[], none, [.revoke "auth-uuid" "tmpl-uuid" (List.replicate 20 0)]⟩ ∧
    Delete stdEnv shortThumbState = .crash [] := by
  decide

/-- Model produced by the key-usage stage: defaults are written back
exactly when the attribute is unknown. -/
@[simp]
theorem kuStep_fst_keyUsages (m : ResourceModel) (so : SignOptions) :
    (kuStep m so).1.keyUsages =
      (if m.keyUsages.isUnknown then Attr.value defaultKeyUsages else m.keyUsages) := by
  unfold kuStep; split <;> simp_all

/-- Options produced by the key-usage stage: an unknown attribute
leaves the options untouched, otherwise the elements are copied. -/
@[simp]
theorem kuStep_snd_keyUsages (m : ResourceModel) (so : SignOptions) :
    (kuStep m so).2.keyUsages =
      (if m.keyUsages.isUnknown then so.keyUsages else m.keyUsages.elems) := by
  unfold kuStep; split <;> simp_all

/-- The key-usage stage does not touch the extended-key-usage fields. -/
@[simp]
theorem kuStep_extKeyUsages (m : ResourceModel) (so : SignOptions) :
    (kuStep m so).1.extendedKeyUsages = m.extendedKeyUsages ∧
    (kuStep m so).2.extendedKeyUsages = so.extendedKeyUsages := by
  unfold kuStep; split <;> simp_all

/-- Model produced by the extended-key-usage stage. -/
@[simp]
theorem ekuStep_fst_extKeyUsages (m : ResourceModel) (so : SignOptions) :
    (ekuStep m so).1.extendedKeyUsages =
      (if m.extendedKeyUsages.isUnknown then Attr.value defaultExtKeyUsages
        else m.extendedKeyUsages) := by
  unfold ekuStep; split <;> simp_all

/-- Options produced by the extended-key-usage stage. -/
@[simp]
theorem ekuStep_snd_extKeyUsages (m : ResourceModel) (so : SignOptions) :
    (ekuStep m so).2.extendedKeyUsages =
      (if m.extendedKeyUsages.isUnknown then so.extendedKeyUsages
        else m.extendedKeyUsages.elems) := by
  unfold ekuStep; split <;> simp_all

/-- The extended-key-usage stage does not touch the key-usage
fields. -/
@[simp]
theorem ekuStep_keyUsages (m : ResourceModel) (so : SignOptions) :
    (ekuStep m so).1.keyUsages = m.keyUsages ∧
    (ekuStep m so).2.keyUsages = so.keyUsages := by
  unfold ekuStep; split <;> simp_all

/-- The subject-alternative-names stage never changes the key-usage
fields of the model. -/
@[simp]
theorem buildSignOptionsSAN_model_keyUsages (env : GoEnv) (m : ResourceModel)
    (so : SignOptions) (d : List String) :
    (buildSignOptionsSAN env m so d).model.keyUsages = m.keyUsages ∧
    (buildSignOptionsSAN env m so d).model.extendedKeyUsages = m.extendedKeyUsages := by
  cases hsan : m.additionalSubjectAlternativeNames <;> simp [buildSignOptionsSAN, hsan]

/-- Any options value produced by the subject-alternative-names stage
keeps the key-usage lists it received. -/
theorem buildSignOptionsSAN_opts_keyUsages (env : GoEnv) (m : ResourceModel)
    (so : SignOptions) (d : List String) (so2 : SignOptions)
    (h : (buildSignOptionsSAN env m so d).opts = some so2) :
    so2.keyUsages = so.keyUsages ∧ so2.extendedKeyUsages = so.extendedKeyUsages := by
  cases hsan : m.additionalSubjectAlternativeNames <;>
    simp [buildSignOptionsSAN, hsan] at h <;> simp [h.symm]

/-- The literal-subject-name stage never changes the key-usage fields
of the model. -/
@[simp]
theorem buildSignOptionsTail_model_keyUsages (env : GoEnv) (m : ResourceModel)
    (so : SignOptions) (d : List String) :
    (buildSignOptionsTail env m so d).model.keyUsages = m.keyUsages ∧
    (buildSignOptionsTail env m so d).model.extendedKeyUsages = m.extendedKeyUsages := by
  cases hstr : m.overwriteSubjectNameStr <;> simp only [buildSignOptionsTail, hstr]
  case unknown => simpa using buildSignOptionsSAN_model_keyUsages env _ so d
  case null =>
    by_cases hsn : so.subjectName = "" <;> simp only [hsn, ite_true, ite_false, ne_eq,
      not_true_eq_false, not_false_eq_true, if_true, if_false]
    · simpa using buildSignOptionsSAN_model_keyUsages env m _ d
    · simp
  case value s =>
    by_cases hsn : so.subjectName = "" <;> simp only [hsn, ite_true, ite_false, ne_eq,
      not_true_eq_false, not_false_eq_true, if_true, if_false]
    · simpa using buildSignOptionsSAN_model_keyUsages env m _ d
    · simp

/-- Any options value produced by the literal-subject-name stage keeps
the key-usage lists it received. -/
theorem buildSignOptionsTail_opts_keyUsages (env : GoEnv) (m : ResourceModel)
    (so : SignOptions) (d : List String) (so2 : SignOptions)
    (h : (buildSignOptionsTail env m so d).opts = some so2) :
    so2.keyUsages = so.keyUsages ∧ so2.extendedKeyUsages = so.extendedKeyUsages := by
  cases hstr : m.overwriteSubjectNameStr <;> simp only [buildSignOptionsTail, hstr] at h
  case unknown => exact buildSignOptionsSAN_opts_keyUsages env _ so d so2 h
  case null =>
    by_cases hsn : so.subjectName = "" <;> simp [hsn] at h
    simpa using buildSignOptionsSAN_opts_keyUsages env m _ d so2 h
  case value s =>
    by_cases hsn : so.subjectName = "" <;> simp [hsn] at h
    simpa using buildSignOptionsSAN_opts_keyUsages env m _ d so2 h

/-- The structural-subject-name stage never changes the key-usage
fields of the model. -/
@[simp]
theorem snStep_model_keyUsages (env : GoEnv) (m : ResourceModel)
    (so : SignOptions) (d : List String) :
    (snStep env m so d).model.keyUsages = m.keyUsages ∧
    (snStep env m so d).model.extendedKeyUsages = m.extendedKeyUsages := by
  cases hsn : m.overwriteSubjectName <;> simp only [snStep, hsn]
  case unknown => simpa using buildSignOptionsTail_model_keyUsages env _ so d
  case null => simp
  case value snm =>
    by_cases hd : hasErr d <;> simp only [hd, if_true, if_false, Bool.false_eq_true,
      ite_true, ite_false]
    · simp
    · simpa using buildSignOptionsTail_model_keyUsages env m _ d

/-- Any options value produced by the structural-subject-name stage
keeps the key-usage lists it received. -/
theorem snStep_opts_keyUsages (env : GoEnv) (m : ResourceModel)
    (so : SignOptions) (d : List String) (so2 : SignOptions)
    (h : (snStep env m so d).opts = some so2) :
    so2.keyUsages = so.keyUsages ∧ so2.extendedKeyUsages = so.extendedKeyUsages := by
  cases hsn : m.overwriteSubjectName <;> simp only [snStep, hsn] at h
  case unknown => exact buildSignOptionsTail_opts_keyUsages env _ so d so2 h
  case null => simp at h
  case value snm =>
    by_cases hd : hasErr d <;> simp [hd] at h
    simpa using buildSignOptionsTail_opts_keyUsages env m _ d so2 h

/-- Characterisation of the key-usage handling of buildSignOptions,
provided the validity duration parses: an unknown (unset) usage list is
replaced in the model by the library defaults while the produced
options carry an empty list; a known or null usage list is left
untouched in the model and its elements are copied verbatim into the
options. -/
theorem buildSignOptions_usages_char (env : GoEnv) (m : ResourceModel) (d0 : List String)
    (dur : Int) (h : env.parseDuration m.validityPeriod.valueString = some dur) :
    (buildSignOptions env m d0).model.keyUsages =
      (if m.keyUsages.isUnknown then Attr.value defaultKeyUsages else m.keyUsages) ∧
    (buildSignOptions env m d0).model.extendedKeyUsages =
      (if m.extendedKeyUsages.isUnknown then Attr.value defaultExtKeyUsages
        else m.extendedKeyUsages) ∧
    ∀ so, (buildSignOptions env m d0).opts = some so →
      so.keyUsages = (if m.keyUsages.isUnknown then [] else m.keyUsages.elems) ∧
      so.extendedKeyUsages =
        (if m.extendedKeyUsages.isUnknown then [] else m.extendedKeyUsages.elems) := by
  refine ⟨?_, ?_, ?_⟩
  · simp [buildSignOptions, h]
  · simp [buildSignOptions, h]
  · intro so hso
    simp only [buildSignOptions, h] at hso
    have hx := snStep_opts_keyUsages env _ _ d0 so hso
    simpa [SignOptions.init] using hx

/-- C6, counterexample: at a plan with unset (unknown) key_usages and
extended_key_usages, buildSignOptions succeeds but the produced
SigningOptions carry empty usage lists, not the library defaults the
claim requires. -/
theorem buildSignOptions_unset_usages_counterexample :
    basePlan.keyUsages = Attr.unknown ∧
    basePlan.extendedKeyUsages = Attr.unknown ∧
    (buildSignOptions stdEnv basePlan []).opts.map SignOptions.keyUsages = some [] ∧
    (buildSignOptions stdEnv basePlan []).opts.map SignOptions.extendedKeyUsages = some [] ∧
    ([] : List String) ≠ defaultKeyUsages ∧ ([] : List String) ≠ defaultExtKeyUsages := by
  decide

/-- C6, amended: when key_usages (or extended_key_usages) is unset
(unknown), buildSignOptions writes the default list KeyEncipherment,
DigitalSignature (or ServerAuth, ClientAuth) into the resource model,
i.e. into persisted state, while the SigningOptions it produces carry
an empty usage list; an explicitly set list, including the empty one,
is left in the model as is and copied verbatim into the
SigningOptions. -/
theorem buildSignOptions_unset_usage_defaults (env : GoEnv) (m : ResourceModel)
    (d0 : List String) (dur : Int)
    (h : env.parseDuration m.validityPeriod.valueString = some dur) :
    (m.keyUsages = Attr.unknown →
      (buildSignOptions env m d0).model.keyUsages = Attr.value defaultKeyUsages ∧
      ∀ so, (buildSignOptions env m d0).opts = some so → so.keyUsages = []) ∧
    (m.extendedKeyUsages = Attr.unknown →
      (buildSignOptions env m d0).model.extendedKeyUsages = Attr.value defaultExtKeyUsages ∧
      ∀ so, (buildSignOptions env m d0).opts = some so → so.extendedKeyUsages = []) ∧
    (∀ xs, m.keyUsages = Attr.value xs →
      (buildSignOptions env m d0).model.keyUsages = Attr.value xs ∧
      ∀ so, (buildSignOptions env m d0).opts = some so → so.keyUsages = xs) ∧
    (∀ xs, m.extendedKeyUsages = Attr.value xs →
      (buildSignOptions env m d0).model.extendedKeyUsages = Attr.value xs ∧
      ∀ so, (buildSignOptions env m d0).opts = some so → so.extendedKeyUsages = xs) := by
  obtain ⟨h1, h2, h3⟩ := buildSignOptions_usages_char env m d0 dur h
  refine ⟨fun hku => ⟨?_, fun so hso => ?_⟩, fun hku => ⟨?_, fun so hso => ?_⟩,
    fun xs hku => ⟨?_, fun so hso => ?_⟩, fun xs hku => ⟨?_, fun so hso => ?_⟩⟩
  · simp [h1, hku, Attr.isUnknown]
  · simpa [hku, Attr.isUnknown] using (h3 so hso).1
  · simp [h2, hku, Attr.isUnknown]
  · simpa [hku, Attr.isUnknown] using (h3 so hso).2
  · simp [h1, hku, Attr.isUnknown]
  · simpa [hku, Attr.isUnknown, Attr.elems] using (h3 so hso).1
  · simp [h2, hku, Attr.isUnknown]
  · simpa [hku, Attr.isUnknown, Attr.elems] using (h3 so hso).2


/-- A separator-joined list of strings is at least as long as its
head. -/
theorem joinSep_data_ne_nil (sep x : String) (xs : List String) (hx : x.data ≠ []) :
    (joinSep sep (x :: xs)).data ≠ [] := by
  cases xs with
  | nil => simpa [joinSep]
  | cons y rest => simp [joinSep, String.data_append, hx]

/-- The framework String representation of a string attribute is never
the empty string. -/
theorem tfStringRepr_ne_empty (a : Attr String) : tfStringRepr a ≠ "" := by
  cases a with
  | unknown => decide
  | null => decide
  | value s =>
    intro h
    have hd := congrArg String.data h
    simp [tfStringRepr, goQuote, String.data_append] at hd

/-- The pkix string of a name with nonempty common name is nonempty:
the common-name RDN is printed first and starts with CN=. -/
theorem pkixString_ne_empty (n : PkixName) (h : n.commonName ≠ "") : n.string ≠ "" := by
  have hcn : (rdnString "CN" [n.commonName]).data ≠ [] := by
    simp [rdnString, joinSep, atvString, String.data_append]
  have hs : n.string =
      joinSep "," (rdnString "CN" [n.commonName] ::
        n.preGroups.reverse.map (fun g => rdnString g.1 g.2)) := by
    simp [PkixName.string, PkixName.toGroups, h]
  intro hemp
  have hnil := joinSep_data_ne_nil "," (rdnString "CN" [n.commonName])
    (n.preGroups.reverse.map (fun g => rdnString g.1 g.2)) hcn
  rw [← hs, hemp] at hnil
  exact hnil rfl

/-- The key-usage stage does not touch any other model field or the
subject name of the options. -/
@[simp]
theorem kuStep_other_fields (m : ResourceModel) (so : SignOptions) :
    (kuStep m so).1.overwriteSubjectName = m.overwriteSubjectName ∧
    (kuStep m so).1.overwriteSubjectNameStr = m.overwriteSubjectNameStr ∧
    (kuStep m so).1.additionalSubjectAlternativeNames = m.additionalSubjectAlternativeNames ∧
    (kuStep m so).1.validityPeriod = m.validityPeriod ∧
    (kuStep m so).1.earlyRenewalPeriod = m.earlyRenewalPeriod ∧
    (kuStep m so).1.certRequestPEM = m.certRequestPEM ∧
    (kuStep m so).1.authorityID = m.authorityID ∧
    (kuStep m so).1.templateID = m.templateID ∧
    (kuStep m so).2.subjectName = so.subjectName ∧
    (kuStep m so).2.duration = so.duration := by
  unfold kuStep; split <;> simp_all

/-- The extended-key-usage stage does not touch any other model field
or the subject name of the options. -/
@[simp]
theorem ekuStep_other_fields (m : ResourceModel) (so : SignOptions) :
    (ekuStep m so).1.overwriteSubjectName = m.overwriteSubjectName ∧
    (ekuStep m so).1.overwriteSubjectNameStr = m.overwriteSubjectNameStr ∧
    (ekuStep m so).1.additionalSubjectAlternativeNames = m.additionalSubjectAlternativeNames ∧
    (ekuStep m so).1.validityPeriod = m.validityPeriod ∧
    (ekuStep m so).1.earlyRenewalPeriod = m.earlyRenewalPeriod ∧
    (ekuStep m so).1.certRequestPEM = m.certRequestPEM ∧
    (ekuStep m so).1.authorityID = m.authorityID ∧
    (ekuStep m so).1.templateID = m.templateID ∧
    (ekuStep m so).2.subjectName = so.subjectName ∧
    (ekuStep m so).2.duration = so.duration := by
  unfold ekuStep; split <;> simp_all

/-- When both subject-name overrides are populated, buildSignOptions
produces no options and reports a validation error. -/
theorem buildSignOptions_both_subject_variants (env : GoEnv) (m : ResourceModel)
    (snm : SubjectNameAttr) (s : String) (dur : Int)
    (hsn : m.overwriteSubjectName = Attr.value snm)
    (hstr : m.overwriteSubjectNameStr = Attr.value s)
    (hdur : env.parseDuration m.validityPeriod.valueString = some dur) :
    (buildSignOptions env m []).opts = none ∧
    hasErr (buildSignOptions env m []).diags = true := by
  have hne : (pkixOf snm).string ≠ "" :=
    pkixString_ne_empty (pkixOf snm) (tfStringRepr_ne_empty snm.commonName)
  simp only [buildSignOptions, hdur, snStep,
    (ekuStep_other_fields _ _).1, (kuStep_other_fields _ _).1, hsn]
  simp only [hasErr, List.isEmpty_nil, Bool.not_true, Bool.false_eq_true, if_false,
    ite_false, ite_true]
  simp only [buildSignOptionsTail,
    (ekuStep_other_fields _ _).2.1, (kuStep_other_fields _ _).2.1, hstr]
  simp [hne, hasErr]

/-- An error already recorded when buildSignOptions finishes makes
Create return before any external call, with no state written. -/
theorem create_aborted (env : GoEnv) (m : ResourceModel)
    (h : hasErr (buildSignOptions env m []).diags = true) :
    ∃ d, Create env m = OpOutcome.norm ⟨d, none, []⟩ := by
  unfold Create
  cases hc : sslAuthorityClient env m
  case error e => exact ⟨_, rfl⟩
  case ok ct =>
    cases hcsr : csr env m.certRequestPEM.valueString
    case error e => exact ⟨_, rfl⟩
    case ok csrB =>
      rw [h]
      exact ⟨_, rfl⟩

/-- An error already recorded when buildSignOptions finishes makes
Update return before any external call, with no state written. -/
theorem update_aborted (env : GoEnv) (newm oldm : ResourceModel)
    (h : hasErr (buildSignOptions env newm []).diags = true) :
    ∃ d, Update env newm oldm = OpOutcome.norm ⟨d, none, []⟩ := by
  unfold Update
  cases hcsr : csr env newm.certRequestPEM.valueString
  case error e => exact ⟨_, rfl⟩
  case ok csrB =>
    rw [h]
    exact ⟨_, rfl⟩

/-- C8: when both the structural and the literal subject-name override
are populated, buildSignOptions produces no SigningOptions value and
reports a validation error, and neither Create nor Update makes any
external Sign or Revoke call for such a plan. -/
theorem bothSubjectVariants_no_sign (env : GoEnv) (m : ResourceModel)
    (snm : SubjectNameAttr) (s : String) (dur : Int)
    (hsn : m.overwriteSubjectName = Attr.value snm)
    (hstr : m.overwriteSubjectNameStr = Attr.value s)
    (hdur : env.parseDuration m.validityPeriod.valueString = some dur) :
    (buildSignOptions env m []).opts = none ∧
    hasErr (buildSignOptions env m []).diags = true ∧
    (∀ r, Create env m = OpOutcome.norm r → r.trace = []) ∧
    (∀ tr, Create env m ≠ OpOutcome.crash tr) ∧
    (∀ oldm r, Update env m oldm = OpOutcome.norm r → r.trace = []) ∧
    (∀ oldm tr, Update env m oldm ≠ OpOutcome.crash tr) := by
  obtain ⟨h1, h2⟩ := buildSignOptions_both_subject_variants env m snm s dur hsn hstr hdur
  obtain ⟨d, hd⟩ := create_aborted env m h2
  refine ⟨h1, h2, ?_, ?_, ?_, ?_⟩
  · intro r hr
    rw [hd] at hr
    injection hr with h3
    subst h3
    rfl
  · intro tr hc
    rw [hd] at hc
    simp at hc
  · intro oldm r hr
    obtain ⟨d2, hd2⟩ := update_aborted env m oldm h2
    rw [hd2] at hr
    injection hr with h3
    subst h3
    rfl
  · intro oldm tr hc
    obtain ⟨d2, hd2⟩ := update_aborted env m oldm h2
    rw [hd2] at hc
    simp at hc

/-- C8, witness: the concrete plan bothSNPlan populates both variants
and buildSignOptions rejects it. -/
theorem bothSubjectVariants_no_sign_witness :
    (buildSignOptions stdEnv bothSNPlan []).opts = none ∧
    hasErr (buildSignOptions stdEnv bothSNPlan []).diags = true :=
  ⟨(bothSubjectVariants_no_sign stdEnv bothSNPlan _ _ 24 rfl rfl (by decide)).1,
   (bothSubjectVariants_no_sign stdEnv bothSNPlan _ _ 24 rfl rfl (by decide)).2.1⟩

/-- C1: on the replace path, the old thumbprint is revoked with the
old-state client before the one Sign call with the new options; a
revoke failure surfaces only in the diagnostics, the Sign call is made
regardless; when Sign succeeds the persisted state is the fully
materialized new record; when Sign fails no state is written, and in
either case the trace is exactly revoke followed by sign, so a
completed revoke is never compensated. -/
theorem update_replace_revoke_before_sign (env : GoEnv) (newm oldm : ResourceModel)
    (csrB : List Nat) (so : SignOptions) (m2 : ResourceModel) (erp : Int)
    (oa ot na nt : String) (tb arr : List Nat)
    (hcsr : csr env newm.certRequestPEM.valueString = .ok csrB)
    (hdiags : (buildSignOptions env newm []).diags = [])
    (hopts : (buildSignOptions env newm []).opts = some so)
    (herp : erpStep env (buildSignOptions env newm []).model = .ok (m2, erp))
    (hle : decide (erp > so.duration) = false)
    (hreq : requireNewCertificate m2 oldm = true)
    (hosc : sslAuthorityClient env oldm = .ok (oa, ot))
    (hhex : hexDecode oldm.certThumbprintHex.valueString = some tb)
    (hsta : sliceToArray20 tb = some arr)
    (hnsc : sslAuthorityClient env newm = .ok (na, nt)) :
    (∀ e, env.sign na nt csrB so = .error e →
      Update env newm oldm = OpOutcome.norm
        ⟨revokeDiags (env.revoke oa ot arr) ++ ["Error Signing: " ++ e], none,
          [Event.revoke oa ot arr, Event.sign na nt csrB so]⟩) ∧
    (∀ c cs, env.sign na nt csrB so = .ok (c :: cs) →
      Update env newm oldm = OpOutcome.norm
        ⟨revokeDiags (env.revoke oa ot arr), some (saveCertificate env m2 c erp),
          [Event.revoke oa ot arr, Event.sign na nt csrB so]⟩) := by
  constructor
  · intro e hsig
    simp [Update, hcsr, hdiags, hopts, herp, hle, hreq, hosc, hhex, hsta, hnsc, hsig, hasErr]
  · intro c cs hsig
    simp [Update, hcsr, hdiags, hopts, herp, hle, hreq, hosc, hhex, hsta, hnsc, hsig, hasErr]

/-- C1, witness: the concrete replace of baseState by newPlan48 under a
failing revoke still signs, keeps the revoke failure as a diagnostic
only, and persists the new record. -/
theorem update_replace_revoke_before_sign_witness :
    Update envRepl newPlan48 baseState = OpOutcome.norm
      ⟨revokeDiags (envRepl.revoke "auth-uuid" "tmpl-uuid" baseThumb),
        some (saveCertificate envRepl newPlan48Resolved cert2 0),
        [Event.revoke "auth-uuid" "tmpl-uuid" baseThumb,
         Event.sign "auth-uuid" "tmpl-uuid" [1, 2, 3] so48]⟩ :=
  (update_replace_revoke_before_sign envRepl newPlan48 baseState [1, 2, 3] so48
      newPlan48Resolved 0 "auth-uuid" "tmpl-uuid" "auth-uuid" "tmpl-uuid" baseThumb baseThumb
      rfl rfl rfl rfl rfl rfl rfl rfl rfl rfl).2 cert2 [] rfl

/-- C7: a no-identity-change update whose prior certificate is not yet
ready for renewal under the new early renewal period writes a state
that carries the five certificate record fields forward unchanged from
the prior state with ready_for_renewal forced false, and makes no Sign
or Revoke call. -/
theorem update_carry_forward_when_not_ready (env : GoEnv) (newm oldm : ResourceModel)
    (csrB : List Nat) (so : SignOptions) (m2 : ResourceModel) (erp notAfter : Int)
    (pe th se nb na : String)
    (hcsr : csr env newm.certRequestPEM.valueString = .ok csrB)
    (hdiags : (buildSignOptions env newm []).diags = [])
    (hopts : (buildSignOptions env newm []).opts = some so)
    (herp : erpStep env (buildSignOptions env newm []).model = .ok (m2, erp))
    (hle : decide (erp > so.duration) = false)
    (hreq : requireNewCertificate m2 oldm = false)
    (hna : env.parseRFC3339 oldm.validityNotAfter.valueString = some notAfter)
    (hready : readyForRenewal notAfter erp env.now = false)
    (hpe : oldm.certPEM = Attr.value pe)
    (hth : oldm.certThumbprintHex = Attr.value th)
    (hse : oldm.certSerialNumber = Attr.value se)
    (hnb : oldm.validityNotBefore = Attr.value nb)
    (hnaV : oldm.validityNotAfter = Attr.value na) :
    Update env newm oldm = OpOutcome.norm ⟨[], some (carryForward m2 oldm), []⟩ ∧
    (carryForward m2 oldm).certPEM = oldm.certPEM ∧
    (carryForward m2 oldm).certThumbprintHex = oldm.certThumbprintHex ∧
    (carryForward m2 oldm).certSerialNumber = oldm.certSerialNumber ∧
    (carryForward m2 oldm).validityNotBefore = oldm.validityNotBefore ∧
    (carryForward m2 oldm).validityNotAfter = oldm.validityNotAfter ∧
    (carryForward m2 oldm).readyForRenewal = Attr.value false := by
  refine ⟨?_, ?_, ?_, ?_, ?_, ?_, rfl⟩
  · simp [Update, hcsr, hdiags, hopts, herp, hle, hreq, hna, hready, hasErr]
  · simp [carryForward, hpe, Attr.valueString]
  · simp [carryForward, hth, Attr.valueString]
  · simp [carryForward, hse, Attr.valueString]
  · simp [carryForward, hnb, Attr.valueString]
  · simp [carryForward, hnaV, Attr.valueString]

/-- Diagnostics ending in an error are nonempty. -/
@[simp]
theorem hasErr_append_cons (d : List String) (x : String) (t : List String) :
    hasErr (d ++ x :: t) = true := by
  cases d <;> simp [hasErr]

/-- C2: whenever the signing service fails, any Create or Update run
that actually reached a Sign call ends with an error diagnostic and
without writing any state, so the prior record is committed
unchanged. -/
theorem sign_error_no_partial_commit (env : GoEnv) (msg : String)
    (hsig : ∀ a t c o, env.sign a t c o = .error msg) :
    (∀ plan r, Create env plan = OpOutcome.norm r →
      (∃ a t c o, Event.sign a t c o ∈ r.trace) →
      hasErr r.diags = true ∧ r.state = none) ∧
    (∀ newm oldm r, Update env newm oldm = OpOutcome.norm r →
      (∃ a t c o, Event.sign a t c o ∈ r.trace) →
      hasErr r.diags = true ∧ r.state = none ∧
      commit oldm (Update env newm oldm) = oldm) := by
  constructor
  · intro plan r hr hmem
    simp only [Create, hsig] at hr
    split at hr <;> try split at hr <;> try split at hr <;> try split at hr <;>
      try split at hr <;> try split at hr <;> try split at hr
    all_goals first
      | (injection hr with h3; subst h3; simp_all [hasErr])
      | simp_all
  · intro newm oldm r hr hmem
    have hr0 := hr
    simp only [Update, hsig] at hr
    split at hr <;> try split at hr <;> try split at hr <;> try split at hr <;>
      try split at hr <;> try split at hr <;> try split at hr <;> try split at hr <;>
      try split at hr <;> try split at hr <;> try split at hr <;> try split at hr <;>
      try split at hr <;> try split at hr
    all_goals first
      | (injection hr with h3; subst h3; simp_all [commit])
      | simp_all

/-- C2, witness: the concrete replace-path update under the failing
signer of stdEnv ends with an error, no state write, and commits the
prior record unchanged. -/
theorem sign_error_no_partial_commit_witness :
    hasErr c2res.diags = true ∧ c2res.state = none ∧
    commit baseState (Update stdEnv newPlan48 baseState) = baseState :=
  (sign_error_no_partial_commit stdEnv "no signer" (fun _ _ _ _ => rfl)).2
    newPlan48 baseState c2res rfl
    ⟨"auth-uuid", "tmpl-uuid", [1, 2, 3], so48, by decide⟩

/-- C7, witness: the concrete no-identity-change update of baseState by
noChangePlan, outside the renewal window, carries the record forward
and traces no external call. -/
theorem update_carry_forward_when_not_ready_witness :
    Update stdEnv noChangePlan baseState =
      OpOutcome.norm ⟨[], some (carryForward noChangePlanResolved baseState), []⟩ ∧
    (carryForward noChangePlanResolved baseState).certPEM = baseState.certPEM ∧
    (carryForward noChangePlanResolved baseState).readyForRenewal = Attr.value false := by
  have h := update_carry_forward_when_not_ready stdEnv noChangePlan baseState [1, 2, 3]
    basePlanOpts noChangePlanResolved 0 2000
    "CERTIFICATE[9, 9]" ("0909" ++ String.mk (List.replicate 36 '0')) "7" "T100" "T2000"
    rfl rfl rfl rfl rfl rfl rfl rfl rfl rfl rfl rfl rfl
  exact ⟨h.1, h.2.1, h.2.2.2.2.2.2⟩

/-- C6, witness: at the concrete unset plan, the defaults land in the
model and the produced options carry an empty key-usage list. -/
theorem buildSignOptions_unset_usage_defaults_witness :
    (buildSignOptions stdEnv basePlan []).model.keyUsages = Attr.value defaultKeyUsages ∧
    (buildSignOptions stdEnv basePlan []).model.extendedKeyUsages =
      Attr.value defaultExtKeyUsages ∧
    basePlanOpts.keyUsages = [] :=
  ⟨((buildSignOptions_unset_usage_defaults stdEnv basePlan [] 24 (by decide)).1 rfl).1,
   ((buildSignOptions_unset_usage_defaults stdEnv basePlan [] 24 (by decide)).2.1 rfl).1,
   ((buildSignOptions_unset_usage_defaults stdEnv basePlan [] 24 (by decide)).1 rfl).2
     basePlanOpts (by decide)⟩

/-- Appending to diagnostics that already hold an error keeps the
error. -/
theorem hasErr_append_left (d e : List String) (h : hasErr d = true) :
    hasErr (d ++ e) = true := by
  cases d <;> simp_all [hasErr]

/-- The subject-alternative-names stage keeps an error already in the
diagnostics. -/
theorem buildSignOptionsSAN_diags_mono (env : GoEnv) (m : ResourceModel) (so : SignOptions)
    (d0 : List String) (h : hasErr d0 = true) :
    hasErr (buildSignOptionsSAN env m so d0).diags = true := by
  cases hsan : m.additionalSubjectAlternativeNames <;> simp only [buildSignOptionsSAN, hsan]
  case unknown => exact h
  case null => simp
  case value sanm => exact hasErr_append_left _ _ (hasErr_append_left _ _ h)

/-- The literal-subject-name stage keeps an error already in the
diagnostics. -/
theorem buildSignOptionsTail_diags_mono (env : GoEnv) (m : ResourceModel) (so : SignOptions)
    (d0 : List String) (h : hasErr d0 = true) :
    hasErr (buildSignOptionsTail env m so d0).diags = true := by
  cases hstr : m.overwriteSubjectNameStr <;> simp only [buildSignOptionsTail, hstr]
  case unknown => exact buildSignOptionsSAN_diags_mono env _ so d0 h
  case null =>
    by_cases hsn : so.subjectName = "" <;> simp only [hsn, ite_true, ite_false, ne_eq,
      not_true_eq_false, not_false_eq_true, if_true, if_false]
    · exact buildSignOptionsSAN_diags_mono env m _ d0 h
    · simp
  case value s =>
    by_cases hsn : so.subjectName = "" <;> simp only [hsn, ite_true, ite_false, ne_eq,
      not_true_eq_false, not_false_eq_true, if_true, if_false]
    · exact buildSignOptionsSAN_diags_mono env m _ d0 h
    · simp

/-- The structural-subject-name stage keeps an error already in the
diagnostics. -/
theorem snStep_diags_mono (env : GoEnv) (m : ResourceModel) (so : SignOptions)
    (d0 : List String) (h : hasErr d0 = true) :
    hasErr (snStep env m so d0).diags = true := by
  cases hsn : m.overwriteSubjectName <;> simp only [snStep, hsn]
  case unknown => exact buildSignOptionsTail_diags_mono env _ so d0 h
  case null => simp
  case value snm => simp only [h, ite_true, if_true]

/-- buildSignOptions keeps an error already in the diagnostics. -/
theorem buildSignOptions_diags_mono (env : GoEnv) (m : ResourceModel)
    (d0 : List String) (h : hasErr d0 = true) :
    hasErr (buildSignOptions env m d0).diags = true := by
  unfold buildSignOptions
  cases hp : env.parseDuration m.validityPeriod.valueString
  case none => simp
  case some dur => exact snStep_diags_mono env _ _ d0 h

/-- A normal result with error diagnostics and an empty trace
satisfies the C9 outcome property for any prior record. -/
theorem failsWithoutMutation_norm (prior : ResourceModel) (d : List String)
    (st : Option ResourceModel) (hd : hasErr d = true) :
    failsWithoutMutation prior (OpOutcome.norm ⟨d, st, []⟩) := by
  refine ⟨by simp [commit, hd], by simp, fun r hr => ?_⟩
  injection hr with h3
  subst h3
  exact ⟨hd, rfl⟩

/-- C9: a Read over persisted state whose validity-not-after does not
parse, whose early renewal period is unexpectedly unknown, or whose
early renewal period string does not parse, ends in an error
diagnostic, makes no external call, and commits the prior record
unchanged. -/
theorem read_corrupted_state_aborts (env : GoEnv) (data : ResourceModel) (a t : String)
    (hc : sslAuthorityClient env data = .ok (a, t))
    (hcase :
      env.parseRFC3339 data.validityNotAfter.valueString = none ∨
      data.earlyRenewalPeriod = Attr.unknown ∨
      (data.earlyRenewalPeriod.isUnknown = false ∧ data.earlyRenewalPeriod.isNull = false ∧
        env.parseDuration data.earlyRenewalPeriod.valueString = none)) :
    failsWithoutMutation data (Read env data) := by
  rcases hcase with h1 | h2 | ⟨h3a, h3b, h3c⟩
  · rw [show Read env data =
        OpOutcome.norm ⟨["Invalid Internal State: invalid certificate expiration time stamp"],
          none, []⟩ from by simp [Read, hc, h1]]
    exact failsWithoutMutation_norm data _ none (by simp [hasErr])
  · cases hna : env.parseRFC3339 data.validityNotAfter.valueString
    case none =>
      rw [show Read env data =
          OpOutcome.norm ⟨["Invalid Internal State: invalid certificate expiration time stamp"],
            none, []⟩ from by simp [Read, hc, hna]]
      exact failsWithoutMutation_norm data _ none (by simp [hasErr])
    case some notAfter =>
      rw [show Read env data =
          OpOutcome.norm
            ⟨["Invalid Internal State: invalid certificate early renewal period: unknown"],
              none, []⟩ from by simp [Read, hc, hna, h2, Attr.isUnknown]]
      exact failsWithoutMutation_norm data _ none (by simp [hasErr])
  · cases hna : env.parseRFC3339 data.validityNotAfter.valueString
    case none =>
      rw [show Read env data =
          OpOutcome.norm ⟨["Invalid Internal State: invalid certificate expiration time stamp"],
            none, []⟩ from by simp [Read, hc, hna]]
      exact failsWithoutMutation_norm data _ none (by simp [hasErr])
    case some notAfter =>
      have herpd : readErpStep env data =
          (0, ["Invalid Validity Period: invalid duration string"]) := by
        simp [readErpStep, h3b, h3c]
      have hd1 : hasErr ["Invalid Validity Period: invalid duration string"] = true := by
        simp [hasErr]
      cases hrdy : readyForRenewal notAfter 0 env.now
      case false =>
        rw [show Read env data =
            OpOutcome.norm ⟨["Invalid Validity Period: invalid duration string"],
              some { data with readyForRenewal := .value false }, []⟩ from by
          simp [Read, hc, hna, h3a, herpd, hrdy]]
        exact failsWithoutMutation_norm data _ _ hd1
      case true =>
        cases hcsr : csr env data.certRequestPEM.valueString
        case error e =>
          rw [show Read env data =
              OpOutcome.norm ⟨["Invalid Validity Period: invalid duration string"] ++
                ["Invalid Certificate Request PEM: " ++ e], none, []⟩ from by
            simp [Read, hc, hna, h3a, herpd, hrdy, hcsr]]
          exact failsWithoutMutation_norm data _ none (by simp [hasErr])
        case ok csrB =>
          have hbso := buildSignOptions_diags_mono env data
            ["Invalid Validity Period: invalid duration string"] hd1
          rw [show Read env data =
              OpOutcome.norm
                ⟨(buildSignOptions env data
                    ["Invalid Validity Period: invalid duration string"]).diags,
                  none, []⟩ from by
            simp [Read, hc, hna, h3a, herpd, hrdy, hcsr, hbso]]
          exact failsWithoutMutation_norm data _ none hbso

/-- C9, witness: reading the concrete state with an unparsable
validity-not-after fails without mutating the record. -/
theorem read_corrupted_state_aborts_witness :
    failsWithoutMutation badNotAfterState (Read stdEnv badNotAfterState) :=
  read_corrupted_state_aborts stdEnv badNotAfterState "auth-uuid" "tmpl-uuid" rfl
    (Or.inl rfl)

/-- C10: the engine indexes the first element of the certificate list a
successful Sign returns without a length check: with a nonempty list
the first element is materialized, with an empty list the run crashes,
so no Read or Update completes normally past a Sign call that returned
an empty list. -/
theorem sign_result_first_element_unchecked :
    (∀ env m ct csrB so m2 erp,
      sslAuthorityClient env m = Except.ok ct →
      csr env m.certRequestPEM.valueString = .ok csrB →
      (buildSignOptions env m []).diags = [] →
      (buildSignOptions env m []).opts = some so →
      erpStep env (buildSignOptions env m []).model = .ok (m2, erp) →
      decide (erp > so.duration) = false →
      (env.sign ct.1 ct.2 csrB so = .ok [] →
        Create env m = OpOutcome.crash [Event.sign ct.1 ct.2 csrB so]) ∧
      (∀ c cs, env.sign ct.1 ct.2 csrB so = .ok (c :: cs) →
        Create env m = OpOutcome.norm
          ⟨[], some (saveCertificate env m2 c erp), [Event.sign ct.1 ct.2 csrB so]⟩)) ∧
    (∀ env, (∀ a t c o, env.sign a t c o = Except.ok ([] : List Certificate)) →
      ∀ data newm oldm,
        (∀ r, Read env data = OpOutcome.norm r → r.trace = []) ∧
        (∀ r, Update env newm oldm = OpOutcome.norm r →
          ∀ a t c o, Event.sign a t c o ∉ r.trace)) := by
  constructor
  · intro env m ct csrB so m2 erp h1 h2 h3 h4 h5 h6
    constructor
    · intro hsig
      simp [Create, h1, h2, h3, h4, h5, h6, hsig, hasErr]
    · intro c cs hsig
      simp [Create, h1, h2, h3, h4, h5, h6, hsig, hasErr]
  · intro env hsig data newm oldm
    constructor
    · intro r hr
      simp only [Read, hsig] at hr
      split at hr <;> try split at hr <;> try split at hr <;> try split at hr <;>
        try split at hr <;> try split at hr <;> try split at hr
      all_goals first
        | (injection hr with h3; subst h3; rfl)
        | (injection hr)
        | simp_all
    · intro r hr
      simp only [Update, hsig] at hr
      split at hr <;> try split at hr <;> try split at hr <;> try split at hr <;>
        try split at hr <;> try split at hr <;> try split at hr <;> try split at hr <;>
        try split at hr <;> try split at hr <;> try split at hr <;> try split at hr <;>
        try split at hr
      all_goals first
        | (injection hr with h3; subst h3; intro a t c o; simp)
        | (injection hr)
        | simp_all

/-- C10, witness: under a signing service returning an empty list, the
concrete Create crashes at the first-element access. -/
theorem sign_result_first_element_unchecked_witness :
    Create envEmptySign basePlan =
      OpOutcome.crash [Event.sign "auth-uuid" "tmpl-uuid" [1, 2, 3] basePlanOpts] :=
  (sign_result_first_element_unchecked.1 envEmptySign basePlan ("auth-uuid", "tmpl-uuid")
    [1, 2, 3] basePlanOpts basePlanResolved 0 rfl rfl rfl rfl rfl rfl).1 rfl

end Keytos
